import Mathlib

/-!
Verification of the XMPP session engine (JID parsing, stream-feature
negotiation, session state bits, STARTTLS and SASL features) as a shallow
embedding of the Go sources.  Definitions are translated from the source
files; a few constants and external library calls that are not part of the
provided sources are modelled from the spec and documented as such.
-/

set_option autoImplicit false

namespace XmppSpec

/-- Modelled from the spec: the declaration of the `SessionState` bit
constants is not among the provided sources (only their uses are).  The spec
lists the orthogonal OR-combined bits `Received`, `Secure`, `Authn`, `Ready`,
`InputStreamClosed`, `OutputStreamClosed`; the StartTLS feature additionally
uses `StreamRestartRequired` and `EndStream`.  Each is a distinct single bit;
no claim depends on the particular bit positions. -/
def Secure : Nat := 1

/-- Session-state bit: the peer has authenticated (see `Secure`). -/
def Authn : Nat := 2

/-- Session-state bit: feature negotiation is complete (see `Secure`). -/
def Ready : Nat := 4

/-- Session-state bit: we are the responder of the connection (see `Secure`). -/
def Received : Nat := 8

/-- Session-state bit: the input stream has been closed (see `Secure`). -/
def InputStreamClosed : Nat := 16

/-- Session-state bit: the output stream has been closed (see `Secure`). -/
def OutputStreamClosed : Nat := 32

/-- Session-state bit: the feature asks for a stream restart (see `Secure`). -/
def StreamRestartRequired : Nat := 64

/-- Session-state bit: the stream should be ended (see `Secure`). -/
def EndStream : Nat := 128

/-- Namespace constant from `ns/ns.go`: `SASL`. -/
def nsSASL : String := "urn:ietf:params:xml:ns:xmpp-sasl"

/-- Namespace constant from `ns/ns.go`: `StartTLS`. -/
def nsStartTLS : String := "urn:ietf:params:xml:ns:xmpp-tls"

/-- Go `unicode.IsSpace`: the Unicode White_Space property, which is what
`strings.Fields`, `strings.TrimSpace` and friends split on. -/
def isSpaceRune (c : Char) : Bool :=
  decide ((9 ≤ c.toNat ∧ c.toNat ≤ 13) ∨ c.toNat = 32 ∨ c.toNat = 0x85 ∨
    c.toNat = 0xA0 ∨ c.toNat = 0x1680 ∨ (0x2000 ≤ c.toNat ∧ c.toNat ≤ 0x200A) ∨
    c.toNat = 0x2028 ∨ c.toNat = 0x2029 ∨ c.toNat = 0x202F ∨
    c.toNat = 0x205F ∨ c.toNat = 0x3000)

/-- Number of bytes of the UTF-8 encoding of one code point; Go measures
string lengths in bytes. -/
def charUtf8Len (c : Char) : Nat :=
  if c.toNat < 0x80 then 1
  else if c.toNat < 0x800 then 2
  else if c.toNat < 0x10000 then 3
  else 4

/-- Go `len(s)` on a string: the byte length of its UTF-8 encoding. -/
def strByteLen (s : String) : Nat := (s.data.map charUtf8Len).sum

/-- Go `utf8.ValidString`.  A Lean `String` ranges over exactly the sequences
of Unicode scalar values, i.e. the valid-UTF-8 Go strings, so on the domain of
this embedding the check is identically true. -/
def utf8ValidString (_s : String) : Bool := true

/-- Go `strings.ContainsAny(s, chars)`: does `s` contain any character of
`chars`? -/
def containsAnyStr (s chars : String) : Bool :=
  s.data.any (fun c => chars.data.contains c)

/-- The character set rejected in JID parts by `NormalizeJIDPart`
(`starttls.go`, jid draft): `"&'/:<>@`. -/
def illegalJIDChars : String := "\x22&\x27/:<>@"

/-- A single apostrophe, as prepended and appended by the whitespace check in
`NormalizeJIDPart`. -/
def squote : String := "\x27"

/-- Accumulator-style core of Go `strings.Fields`: split around runs of
characters satisfying `unicode.IsSpace`, dropping empty fields. -/
def goFieldsAux : List Char → List Char → List (List Char)
  | [], acc => if acc.isEmpty then [] else [acc.reverse]
  | c :: rest, acc =>
    if isSpaceRune c then
      if acc.isEmpty then goFieldsAux rest []
      else acc.reverse :: goFieldsAux rest []
    else goFieldsAux rest (c :: acc)

/-- Go `strings.Fields`. -/
def goFields (s : String) : List String :=
  (goFieldsAux s.data []).map (fun cs => String.mk cs)

/-- Go `strings.TrimSpace` on the character list of a string. -/
def trimSpaceChars (l : List Char) : List Char :=
  ((l.dropWhile isSpaceRune).reverse.dropWhile isSpaceRune).reverse

/-- Go `strings.TrimRight(s, ".")`: remove every trailing dot. -/
def trimDotsRight (l : List Char) : List Char :=
  (l.reverse.dropWhile (fun c => c = Char.ofNat 46)).reverse

/-- Go `strings.TrimPrefix(s, "[")`: drop one leading open bracket. -/
def dropBracketOpen (l : List Char) : List Char :=
  match l with
  | [] => []
  | c :: rest => if c = Char.ofNat 91 then rest else c :: rest

/-- Go `strings.TrimSuffix(s, "]")`: drop one trailing close bracket. -/
def dropBracketClose (l : List Char) : List Char :=
  match l.reverse with
  | [] => []
  | c :: rest => if c = Char.ofNat 93 then rest.reverse else l

/-- Error kinds of the jid draft in `starttls.go` (`ERROR_INVALID_STRING`,
`ERROR_EMPTY_PART`, `ERROR_LONG_PART`, `ERROR_NO_RESOURCE`,
`ERROR_INVALID_JID`, `ERROR_ILLEGAL_RUNE`, `ERROR_ILLEGAL_SPACE`). -/
inductive JIDError where
  | invalidString
  | emptyPart
  | longPart
  | noResource
  | invalidJID
  | illegalRune
  | illegalSpace
  deriving DecidableEq, Repr

/-- The `JID` struct of the jid draft in `starttls.go`: three normalized
string parts. -/
structure JID where
  localpart : String
  domainpart : String
  resourcepart : String
  deriving DecidableEq, Repr

/-- Function `NormalizeJIDPart` of the jid draft in `starttls.go`.  The Go
code computes `normalized := NF.String(part)` with `NF = norm.NFKC` from the
external Unicode library; the normalization function is therefore a parameter
`nf` here, and theorems quantify over it. -/
def NormalizeJIDPart (nf : String → String) (part : String) : Except JIDError String :=
  if strByteLen (nf part) = 0 then .error .emptyPart
  else if 1023 < strByteLen (nf part) then .error .longPart
  else if utf8ValidString part = false then .error .invalidString
  else if containsAnyStr part illegalJIDChars then .error .illegalRune
  else if (goFields (squote ++ nf part ++ squote)).length ≠ 1 then .error .illegalSpace
  else .ok (nf part)

/-- Method `SetLocalPart` of the jid draft in `starttls.go`; it stores the
normalized part, modelled by returning it. -/
def SetLocalPart (nf : String → String) (localpart : String) : Except JIDError String :=
  NormalizeJIDPart nf localpart

/-- Method `SetDomainPart` of the jid draft in `starttls.go`: strip trailing
label-separator dots, normalize, strip brackets, and re-bracket when the
result is an IPv6 address.  The Go code decides that with
`ip := net.ParseIP(normalized); ip != nil && ip.To4() == nil` from the
standard library, modelled here by the parameter `isIPv6`. -/
def SetDomainPart (nf : String → String) (isIPv6 : String → Bool) (domainpart : String) : Except JIDError String :=
  let trimmed := String.mk (trimDotsRight domainpart.data)
  match NormalizeJIDPart nf trimmed with
  | .error e => .error e
  | .ok normalized =>
    let unbracketed := String.mk (dropBracketClose (dropBracketOpen normalized.data))
    let final := if isIPv6 unbracketed then "[" ++ unbracketed ++ "]" else unbracketed
    .ok final

/-- Method `SetResourcePart` of the jid draft in `starttls.go`. -/
def SetResourcePart (nf : String → String) (resourcepart : String) : Except JIDError String :=
  NormalizeJIDPart nf resourcepart

/-- Character class `[^@/]` of the `JIDMatch` regular expression. -/
def notSepChar (c : Char) : Bool :=
  decide (c ≠ Char.ofNat 64 ∧ c ≠ Char.ofNat 47)

/-- Matching the regular expression `JIDMatch = "[^@/]+@[^@/]+/[^@/]+"` at one
start position.  Because the class `[^@/]` excludes both separator literals,
each `+` run must extend exactly to the next separator, so matching is
deterministic. -/
def matchJIDFrom (l : List Char) : Bool :=
  let r1 := l.takeWhile notSepChar
  let l1 := l.dropWhile notSepChar
  if r1.isEmpty then false
  else
    match l1 with
    | [] => false
    | c :: l2 =>
      if c = Char.ofNat 64 then
        let r2 := l2.takeWhile notSepChar
        let l3 := l2.dropWhile notSepChar
        if r2.isEmpty then false
        else
          match l3 with
          | [] => false
          | d :: l4 =>
            if d = Char.ofNat 47 then !(l4.takeWhile notSepChar).isEmpty
            else false
      else false

/-- Go `regexp.MatchString(JIDMatch, s)` is an unanchored search: try every
start position. -/
def matchJIDAny : List Char → Bool
  | [] => false
  | c :: rest => matchJIDFrom (c :: rest) || matchJIDAny rest

/-- Whether `JIDMatch` matches somewhere in `s`. -/
def matchJID (s : String) : Bool := matchJIDAny s.data

/-- Method `FromString` of the jid draft in `starttls.go`: reject invalid
UTF-8, require a `JIDMatch` match (reporting `ERROR_NO_RESOURCE` when the
string has no slash and `ERROR_INVALID_JID` otherwise), trim surrounding
space, split at the first `@` and the first `/`, and set the three parts. -/
def FromString (nf : String → String) (isIPv6 : String → Bool) (s : String) : Except JIDError JID :=
  if utf8ValidString s = false then .error .invalidString
  else if matchJID s = false then
    if s.data.contains (Char.ofNat 47) = false then .error .noResource
    else .error .invalidJID
  else
    let t := trimSpaceChars s.data
    let atLoc := t.findIdx (fun c => c = Char.ofNat 64)
    let slashLoc := t.findIdx (fun c => c = Char.ofNat 47)
    match SetLocalPart nf (String.mk (t.take atLoc)) with
    | .error e => .error e
    | .ok lp =>
      match SetDomainPart nf isIPv6 (String.mk ((t.drop (atLoc + 1)).take (slashLoc - (atLoc + 1)))) with
      | .error e => .error e
      | .ok dp =>
        match SetResourcePart nf (String.mk (t.drop (slashLoc + 1))) with
        | .error e => .error e
        | .ok rp => .ok ⟨lp, dp, rp⟩

/-- Method `String` of the jid draft in `starttls.go`: it concatenates the
three parts with both separators unconditionally. -/
def JID.string (j : JID) : String :=
  j.localpart ++ "@" ++ j.domainpart ++ "/" ++ j.resourcepart

/-- Modelled from the spec: the Unicode NFKC normalization used as `NF` comes
from the external text library and acts as the identity on strings of ASCII
characters; every fixture in the claims is ASCII, so concrete evaluations
instantiate the `nf` parameter with this identity.  General theorems quantify
over the normalization function instead. -/
def nfkcASCII (s : String) : String := s

/-- Modelled from the spec: none of the fixture domains in the claims is an IP
address, so the `net.ParseIP`-based IPv6 test of `SetDomainPart` is false on
them; used to instantiate the `isIPv6` parameter at concrete fixtures. -/
def noIPv6 (_s : String) : Bool := false

/-- Concrete JID part consisting of 1023 commercial-at characters; its NFKC
normalization is itself and is exactly 1023 bytes long. -/
def atSign1023 : String := String.mk (List.replicate 1023 (Char.ofNat 64))

/-- Concrete JID part consisting of 1023 letters `a`; its NFKC normalization
is itself and is exactly 1023 bytes long. -/
def aRun1023 : String := String.mk (List.replicate 1023 (Char.ofNat 97))

/-- Concrete JID part consisting of 1024 letters `a`; its NFKC normalization
is itself and is 1024 bytes long. -/
def aRun1024 : String := String.mk (List.replicate 1024 (Char.ofNat 97))

/-- An `xml.Name`: namespace and local name. -/
structure XmlName where
  space : String
  localName : String
  deriving DecidableEq, Repr

/-- An `xml.Token` as far as the negotiation code inspects it: a start
element, an end element, character data, or a processing instruction. -/
inductive XmlTok where
  | startEl (name : XmlName)
  | endEl (name : XmlName)
  | charData (text : String)
  | procInst
  deriving DecidableEq, Repr

/-- A `StreamFeature` (`part_005`) as far as the negotiation loop inspects it:
its XML name, the `Necessary` and `Prohibited` gating bitmasks, and the
outcome of its `List` callback (the required flag it reports, and whether the
callback fails), the callbacks being opaque function values in the source. -/
structure FeatureInfo where
  name : XmlName
  necessary : Nat
  prohibited : Nat
  listReq : Bool
  listErr : Bool
  deriving DecidableEq, Repr

/-- Concrete configured feature used by witnesses: the record produced by
`SASL` for a single mechanism. -/
def sampleSASLFeature : FeatureInfo := ⟨⟨nsSASL, "mechanisms"⟩, Secure, Authn, true, false⟩

/-- Concrete configured feature used by witnesses: a STARTTLS-like feature
with no gating bits. -/
def sampleTLSFeature : FeatureInfo := ⟨⟨nsStartTLS, "starttls"⟩, 0, 0, true, false⟩

/-- The `sfData` record of `part_005`: the required flag and the feature it
belongs to (the opaque `data` field is not inspected by the claims). -/
structure SfData where
  req : Bool
  feature : FeatureInfo
  deriving DecidableEq, Repr

/-- The `streamFeaturesList` record of `part_005`; the namespace-keyed Go map
`cache` is modelled as an association list with insert-replaces-key
semantics. -/
structure StreamFeaturesList where
  total : Nat
  req : Bool
  cache : List (String × SfData)
  deriving DecidableEq, Repr

/-- Go map insertion on the association-list model: replace the entry of the
key if present, otherwise append it. -/
def mapInsert {α : Type} : List (String × α) → String → α → List (String × α)
  | [], k, v => [(k, v)]
  | (k0, v0) :: rest, k, v =>
    if k0 = k then (k, v) :: rest else (k0, v0) :: mapInsert rest k v

/-- Go map lookup on the association-list model. -/
def mapLookup {α : Type} : List (String × α) → String → Option α
  | [], _ => none
  | (k0, v0) :: rest, k => if k0 = k then some v0 else mapLookup rest k

/-- Go map-as-set insertion (`m[k] = struct{}{}`) on a list of keys. -/
def setInsert (l : List String) (k : String) : List String :=
  if l.contains k then l else l ++ [k]

/-- The advertisement gate of `writeStreamFeatures` and `readStreamFeatures`
(`part_005`): all `Necessary` bits set in the session state and no
`Prohibited` bit set. -/
def gateOK (state : Nat) (f : FeatureInfo) : Bool :=
  decide (state &&& f.necessary = f.necessary ∧ state &&& f.prohibited = 0)

/-- Errors surfacing from the negotiation code modelled here: a failing `List`
callback or encoder, a failing token read, `streamerror.BadFormat`, and
`streamerror.PolicyViolation` (the `streamerror` package itself is not among
the provided sources; the errors are opaque sentinels to this code). -/
inductive NegotiateErr where
  | listFailed
  | ioError
  | badFormat
  | policyViolation
  deriving DecidableEq, Repr

/-- The feature loop of `writeStreamFeatures` (`part_005`): for each
configured feature passing the gate, call its `List` callback (aborting on
error), record it in the cache under its namespace, OR the required flag, and
count it; features failing the gate are skipped. -/
def writeStreamFeaturesAux (state : Nat) : List FeatureInfo → StreamFeaturesList → Except NegotiateErr StreamFeaturesList
  | [], acc => .ok acc
  | f :: rest, acc =>
    if gateOK state f then
      if f.listErr then .error .listFailed
      else
        writeStreamFeaturesAux state rest
          { total := acc.total + 1
            req := acc.req || f.listReq
            cache := mapInsert acc.cache f.name.space ⟨f.listReq, f⟩ }
    else writeStreamFeaturesAux state rest acc

/-- Function `writeStreamFeatures` of `part_005`, starting from the empty
list (the surrounding `<stream:features>` tokens are emitted by the encoder
and carry no data). -/
def writeStreamFeatures (state : Nat) (features : List FeatureInfo) : Except NegotiateErr StreamFeaturesList :=
  writeStreamFeaturesAux state features ⟨0, false, []⟩

/-- The responder side of the feature-exchange loop of `negotiateFeatures`
(`part_005`, lines 112-133): read one token from the peer; a failed read
surfaces as its error, a non-start-element is `streamerror.BadFormat`;
otherwise look the start element's namespace up in the advertised cache and
the negotiated set, failing with `streamerror.PolicyViolation` when it was
not advertised or was already negotiated, and otherwise selecting that
feature, whose `Negotiate` the caller then invokes.  The token source is the
list `toks`; the returned list is what remains unread. -/
def readFeatureToNegotiate (negotiated : List String) (cache : List (String × SfData)) : List XmlTok → (Except NegotiateErr SfData) × List XmlTok
  | [] => (.error .ioError, [])
  | t :: rest =>
    match t with
    | .startEl n =>
      match mapLookup cache n.space, negotiated.contains n.space with
      | none, _ => (.error .policyViolation, rest)
      | some _, true => (.error .policyViolation, rest)
      | some d, false => (.ok d, rest)
    | _ => (.error .badFormat, rest)

/-- Lines 162-167 of `negotiateFeatures` (`part_005`): after the feature's
`Negotiate` call returns, OR the returned mask into the session state only
when it returned no error, and mark the feature's namespace negotiated
unconditionally.  Arguments are the state and negotiated set before the call,
the feature's namespace, and the mask and error flag `Negotiate` returned;
the result is the state and negotiated set after. -/
def applyNegotiateResult (state : Nat) (negotiated : List String) (space : String) (mask : Nat) (negotiateErred : Bool) : Nat × List String :=
  ((if negotiateErred then state else state ||| mask), setInsert negotiated space)

/-- A `sasl.Mechanism` as far as this code inspects it: its name. -/
structure SASLMechanism where
  name : String
  deriving DecidableEq, Repr

/-- Function `SASL` of `dial1_7.go`: constructing the SASL stream feature.
The Go function panics when no mechanism is given, modelled as `none`;
otherwise it returns the feature record with `Necessary: Secure` and
`Prohibited: Authn`, whose `List` callback always reports required
(`req = true`), modelled with an error-free `List` outcome. -/
def SASL (mechanisms : List SASLMechanism) : Option FeatureInfo :=
  if mechanisms.length = 0 then none
  else
    some
      { name := ⟨nsSASL, "mechanisms"⟩
        necessary := Secure
        prohibited := Authn
        listReq := true
        listErr := false }

/-- Mechanism selection of the SASL `Negotiate` callback (`dial1_7.go`): the
first mechanism in the client-preference order whose name the peer also
offers; the Go code leaves the zero mechanism (empty name) when none
matches. -/
def selectMechanism (mechanisms : List SASLMechanism) (peer : List String) : String :=
  match mechanisms.find? (fun m => peer.contains m.name) with
  | some m => m.name
  | none => ""

/-- The opening tag written by `fmt.Fprintf` for the `<auth/>` element in the
SASL `Negotiate` callback (`dial1_7.go`). -/
def authElemOpen (mech : String) : String :=
  "<auth xmlns=" ++ squote ++ nsSASL ++ squote ++ " mechanism=" ++ squote ++ mech ++ squote ++ ">"

/-- The closing tag of the `<auth/>` element. -/
def authElemClose : String := "</auth>"

/-- RFC 6120 §6.4.2 handling in the SASL `Negotiate` callback
(`dial1_7.go`): a zero-length initial response is replaced by a single
equals sign before transmission. -/
def saslInitialResp (resp : String) : String :=
  if strByteLen resp = 0 then "=" else resp

/-- The full `<auth/>` element written by the SASL `Negotiate` callback for
the initial response `resp` produced by the client's first step. -/
def saslAuthElement (mech : String) (resp : String) : String :=
  authElemOpen mech ++ saslInitialResp resp ++ authElemClose

/-- The initiator-side start of the SASL `Negotiate` callback
(`dial1_7.go`): select a mechanism (failing when none matches) and form the
`<auth/>` element carrying the initial response. -/
def saslClientStart (mechanisms : List SASLMechanism) (peer : List String) (resp : String) : Except String String :=
  if selectMechanism mechanisms peer = "" then
    .error "No matching SASL mechanisms found"
  else .ok (saslAuthElement (selectMechanism mechanisms peer) resp)

/-- What the StartTLS handler does to the underlying transport. -/
inductive TLSAction where
  | noAction
  | wrapClient
  | wrapServer
  deriving DecidableEq, Repr

/-- Errors of the StartTLS handler (`starttls.go`): `ErrTLSUpgradeFailed`,
`UnsupportedStanzaType`, `RestrictedXML`, `InvalidXML`, and a failing token
read. -/
inductive TLSErr where
  | upgradeFailed
  | unsupportedStanzaType
  | restrictedXML
  | invalidXML
  | readFailed
  deriving DecidableEq, Repr

/-- Result of the StartTLS handler: the returned state mask, the TLS wrapping
performed on the transport, and the returned error if any. -/
structure TLSOutcome where
  mask : Nat
  action : TLSAction
  err : Option TLSErr
  deriving DecidableEq, Repr

/-- The `Handler` of the `StartTLS()` feature (`starttls.go`, lines 26-72).
`received` is whether the `Received` bit is set, `isNetConn` whether the
transport implements `net.Conn`, `toks` the tokens the decoder will yield,
and `skipOk` whether skipping to the element's closing tag succeeds.  The
responder writes `<proceed/>` and wraps the transport server-side; the
initiator writes `<starttls/>` and inspects the next token: `<proceed/>`
wraps client-side and yields `Secure|StreamRestartRequired`, `<failure/>`
yields `EndStream` with no error (or `InvalidXML` when the skip fails), a
foreign namespace or local name is `UnsupportedStanzaType`, and a non-start
token is `RestrictedXML`.  The literal writes of `fmt.Fprint` carry no data
inspected here. -/
def startTLSNegotiate (received isNetConn : Bool) (toks : List XmlTok) (skipOk : Bool) : TLSOutcome :=
  if isNetConn = false then ⟨0, .noAction, some .upgradeFailed⟩
  else if received then ⟨Secure ||| StreamRestartRequired, .wrapServer, none⟩
  else
    match toks with
    | [] => ⟨0, .noAction, some .readFailed⟩
    | t :: _ =>
      match t with
      | .startEl n =>
        if n.space ≠ nsStartTLS then ⟨0, .noAction, some .unsupportedStanzaType⟩
        else if n.localName = "proceed" then
          if skipOk = false then ⟨EndStream, .noAction, some .invalidXML⟩
          else ⟨Secure ||| StreamRestartRequired, .wrapClient, none⟩
        else if n.localName = "failure" then
          if skipOk = false then ⟨EndStream, .noAction, some .invalidXML⟩
          else ⟨EndStream, .noAction, none⟩
        else ⟨0, .noAction, some .unsupportedStanzaType⟩
      | _ => ⟨0, .noAction, some .restrictedXML⟩

/-- Error results of `Conn.Read` (`part_004`): the closed-input-stream
sentinel (`errors.New("XML input stream is closed")`) and the transport
`io.EOF` that `bytes.Buffer` returns on an empty buffer. -/
inductive ConnReadErr where
  | inputStreamClosedSentinel
  | ioEOF
  deriving DecidableEq, Repr

/-- A `bytes.Buffer` read: an empty buffer yields `io.EOF`, otherwise the
buffered bytes are returned. -/
def bufferRead (buf : List Nat) : Except ConnReadErr (List Nat) :=
  match buf with
  | [] => .error .ioEOF
  | b :: rest => .ok (b :: rest)

/-- Method `Conn.Read` (`part_004`, lines 103-113): when the
`InputStreamClosed` bit of the session state is set, fail with the
closed-input-stream sentinel; otherwise read from the underlying transport,
modelled as a byte buffer. -/
def connRead (state : Nat) (buf : List Nat) : Except ConnReadErr (List Nat) :=
  if state &&& InputStreamClosed = InputStreamClosed then .error .inputStreamClosedSentinel
  else bufferRead buf

/-- C1: the claim states that every fixture string round-trips through
`parse` and `String()`.  On the code it fails: `FromString` requires the
`JIDMatch` regular expression to match, so `example.net` and
`mercutio@example.net` are rejected with `ERROR_NO_RESOURCE`,
`mercutio@example.net//@//` is rejected with `ERROR_INVALID_JID`, and
`mercutio@example.net/rp@rp/rp` reaches `SetResourcePart`, which rejects the
resourcepart for containing `@` and `/` (`ERROR_ILLEGAL_RUNE`).  Only plain
fixtures of the full `local@domain/resource` shape, such as
`mercutio@example.net/rp`, parse and round-trip. -/
theorem c1_fixture_roundtrip_fails_on_code :
    (∀ isIPv6 : String → Bool,
      FromString nfkcASCII isIPv6 "example.net" = .error .noResource ∧
      FromString nfkcASCII isIPv6 "mercutio@example.net" = .error .noResource ∧
      FromString nfkcASCII isIPv6 "mercutio@example.net/rp@rp/rp" = .error .illegalRune ∧
      FromString nfkcASCII isIPv6 "mercutio@example.net//@//" = .error .invalidJID) ∧
    FromString nfkcASCII noIPv6 "mercutio@example.net/rp" =
      .ok ⟨"mercutio", "example.net", "rp"⟩ ∧
    JID.string ⟨"mercutio", "example.net", "rp"⟩ = "mercutio@example.net/rp" :=
  ⟨fun _ => ⟨rfl, rfl, rfl, rfl⟩, rfl, rfl⟩

/-- C2: the claim states that a string with no `@` and no `/` is accepted as
a domain-only JID.  On the code it fails: for any normalization function and
any IPv6 test, `FromString` rejects `example.net` with `ERROR_NO_RESOURCE`
because the `JIDMatch` regular expression requires all three parts. -/
theorem c2_domain_only_jid_rejected_by_code :
    ∀ (nf : String → String) (isIPv6 : String → Bool),
      FromString nf isIPv6 "example.net" = .error .noResource :=
  fun _ _ => rfl

set_option maxRecDepth 100000 in
/-- C3 counterexample: a part of exactly 1023 bytes after NFKC normalization
is not always accepted; 1023 commercial-at characters normalize to
themselves, are exactly 1023 bytes, and are rejected with
`ERROR_ILLEGAL_RUNE`. -/
theorem c3_counterexample_1023_not_accepted :
    strByteLen (nfkcASCII atSign1023) = 1023 ∧
    NormalizeJIDPart nfkcASCII atSign1023 = .error .illegalRune :=
  ⟨rfl, rfl⟩

/-- C3 (amended): for every JID part, if the part is longer than 1023 bytes
after NFKC normalization then validation rejects it with the long-part
error; a part of exactly 1023 bytes after normalization that additionally
passes the remaining checks (no character of `"&'/:<>@` and no whitespace in
the normalized part) is accepted. -/
theorem c3_part_length_validation (nf : String → String) (pLong pExact : String)
    (hLong : 1023 < strByteLen (nf pLong))
    (hLen : strByteLen (nf pExact) = 1023)
    (hChars : containsAnyStr pExact illegalJIDChars = false)
    (hSpace : (goFields (squote ++ nf pExact ++ squote)).length = 1) :
    NormalizeJIDPart nf pLong = .error .longPart ∧
    NormalizeJIDPart nf pExact = .ok (nf pExact) := by
  constructor
  · simp only [NormalizeJIDPart]
    rw [if_neg (by omega), if_pos hLong]
  · simp only [NormalizeJIDPart]
    rw [if_neg (by omega), if_neg (by omega), if_neg (by simp [utf8ValidString]),
      if_neg (by simp [hChars]), if_neg (by simp [hSpace])]

set_option maxRecDepth 100000 in
/-- C3 witness: the amended statement applied at a 1024-byte part and a
1023-byte part of letters `a`. -/
theorem c3_part_length_validation_witness :
    NormalizeJIDPart nfkcASCII aRun1024 = .error .longPart ∧
    NormalizeJIDPart nfkcASCII aRun1023 = .ok (nfkcASCII aRun1023) :=
  c3_part_length_validation nfkcASCII aRun1024 aRun1023 (by decide) rfl rfl rfl

/-- C4: for every session state bitmask, reading from a session whose
`InputStreamClosed` bit is set returns the closed-input-stream sentinel
irrespective of the buffer, and reading with the bit clear returns the
transport `io.EOF` when the underlying buffer is empty; since
`InputStreamClosed` is a single bit, every mask falls into exactly one of
the two cases. -/
theorem c4_closed_input_stream_read (m : Nat) :
    (m &&& InputStreamClosed = InputStreamClosed →
      ∀ buf : List Nat, connRead m buf = .error .inputStreamClosedSentinel) ∧
    (m &&& InputStreamClosed = 0 → connRead m [] = .error .ioEOF) ∧
    (m &&& InputStreamClosed = InputStreamClosed ∨ m &&& InputStreamClosed = 0) := by
  refine ⟨?_, ?_, ?_⟩
  · intro h buf
    simp [connRead, h]
  · intro h
    have hne : ¬ (m &&& InputStreamClosed = InputStreamClosed) := by
      rw [h]
      simp [InputStreamClosed]
    simp [connRead, hne, bufferRead]
  · have h := Nat.and_two_pow m 4
    have h16 : (2 : Nat) ^ 4 = 16 := by norm_num
    rw [h16] at h
    cases hb : m.testBit 4
    · rw [hb] at h
      right
      simpa [InputStreamClosed] using h
    · rw [hb] at h
      left
      simpa [InputStreamClosed] using h

/-- C4 witness: the closed-bit case at the mask consisting of exactly the
`InputStreamClosed` bit, and the clear case at the zero mask. -/
theorem c4_closed_input_stream_read_witness :
    connRead InputStreamClosed [] = .error .inputStreamClosedSentinel ∧
    connRead 0 [] = .error .ioEOF :=
  ⟨(c4_closed_input_stream_read InputStreamClosed).1 rfl [],
   (c4_closed_input_stream_read 0).2.1 rfl⟩

/-- Lookup after Go-map insertion on the association-list model: the key is
found exactly when it is the inserted key or was already present. -/
theorem mapLookup_insert_isSome {A : Type} (m : List (String × A)) (k k0 : String) (v : A) :
    (mapLookup (mapInsert m k0 v) k).isSome = true ↔
      (k0 = k ∨ (mapLookup m k).isSome = true) := by
  induction m with
  | nil => by_cases h : k0 = k <;> simp [mapInsert, mapLookup, h]
  | cons kv rest ih =>
    obtain ⟨k1, v1⟩ := kv
    by_cases h : k1 = k0
    · subst h
      by_cases h2 : k1 = k <;> simp [mapInsert, mapLookup, h2]
    · by_cases h2 : k1 = k
      · subst h2
        simp [mapInsert, mapLookup, h]
      · simp [mapInsert, mapLookup, h, h2, ih]

/-- Invariant of the `writeStreamFeatures` loop: on success, a namespace is
in the final cache exactly when it was already in the accumulator or some
remaining configured feature with that namespace passes the gate. -/
theorem writeStreamFeaturesAux_cache_isSome (state : Nat) (feats : List FeatureInfo) :
    ∀ (acc out : StreamFeaturesList), writeStreamFeaturesAux state feats acc = .ok out →
    ∀ ns : String, (mapLookup out.cache ns).isSome = true ↔
      ((mapLookup acc.cache ns).isSome = true ∨
        ∃ f, f ∈ feats ∧ gateOK state f = true ∧ f.name.space = ns) := by
  induction feats with
  | nil =>
    intro acc out h ns
    rw [writeStreamFeaturesAux] at h
    cases h
    simp
  | cons f rest ih =>
    intro acc out h ns
    rw [writeStreamFeaturesAux] at h
    by_cases hg : gateOK state f = true
    · rw [if_pos hg] at h
      by_cases he : f.listErr = true
      · rw [if_pos he] at h
        cases h
      · rw [if_neg he] at h
        rw [ih _ _ h ns, mapLookup_insert_isSome]
        simp only [List.mem_cons]
        constructor
        · rintro (⟨hsp | hacc⟩ | ⟨g, hg2, hgate, hsp⟩)
          · exact Or.inr ⟨f, Or.inl rfl, hg, hsp⟩
          · exact Or.inl hacc
          · exact Or.inr ⟨g, Or.inr hg2, hgate, hsp⟩
        · rintro (hacc | ⟨g, hmem, hgate, hsp⟩)
          · exact Or.inl (Or.inr hacc)
          · rcases hmem with hgf | hg2
            · subst hgf
              exact Or.inl (Or.inl hsp)
            · exact Or.inr ⟨g, hg2, hgate, hsp⟩
    · rw [if_neg hg] at h
      rw [ih _ _ h ns]
      simp only [List.mem_cons]
      constructor
      · rintro (hacc | ⟨g, hg2, hgate, hsp⟩)
        · exact Or.inl hacc
        · exact Or.inr ⟨g, Or.inr hg2, hgate, hsp⟩
      · rintro (hacc | ⟨g, hmem, hgate, hsp⟩)
        · exact Or.inl hacc
        · rcases hmem with hgf | hg2
          · subst hgf
            exact absurd hgate hg
          · exact Or.inr ⟨g, hg2, hgate, hsp⟩

/-- C5: when the responder writes its `<stream:features>` list without error,
a namespace is advertised (present in the cache that the following
negotiation step consults) exactly when some configured feature with that
namespace has all its `Necessary` bits set in the session state and none of
its `Prohibited` bits set; in particular a feature whose `Necessary` bits
are not all set is never advertised. -/
theorem c5_features_advertised_iff_gated (state : Nat) (feats : List FeatureInfo)
    (out : StreamFeaturesList) (h : writeStreamFeatures state feats = .ok out) (ns : String) :
    (mapLookup out.cache ns).isSome = true ↔
      ∃ f, f ∈ feats ∧
        (state &&& f.necessary = f.necessary ∧ state &&& f.prohibited = 0) ∧
        f.name.space = ns := by
  rw [writeStreamFeaturesAux_cache_isSome state feats _ out h ns]
  simp [mapLookup, gateOK]

/-- C5 witness: the SASL feature record advertised at a state with exactly
the `Secure` bit set. -/
theorem c5_features_advertised_iff_gated_witness :
    (mapLookup (StreamFeaturesList.cache
        ⟨1, true, [(nsSASL, ⟨true, sampleSASLFeature⟩)]⟩) nsSASL).isSome = true ↔
      ∃ f, f ∈ [sampleSASLFeature] ∧
        (Secure &&& f.necessary = f.necessary ∧ Secure &&& f.prohibited = 0) ∧
        f.name.space = nsSASL :=
  c5_features_advertised_iff_gated Secure [sampleSASLFeature]
    ⟨1, true, [(nsSASL, ⟨true, sampleSASLFeature⟩)]⟩ rfl nsSASL

/-- C6: on the responder side, exactly one token is consumed from the peer
(the rest of the stream is returned unread); a feature start element whose
namespace is not in the advertised cache, or whose namespace was already
negotiated, fails with the policy-violation stream error, and otherwise the
cached feature is selected for its `Negotiate` invocation. -/
theorem c6_responder_reads_one_feature (negotiated : List String)
    (cache : List (String × SfData)) (n : XmlName) (rest : List XmlTok) :
    (readFeatureToNegotiate negotiated cache (.startEl n :: rest)).2 = rest ∧
    (mapLookup cache n.space = none →
      (readFeatureToNegotiate negotiated cache (.startEl n :: rest)).1 =
        .error .policyViolation) ∧
    (negotiated.contains n.space = true →
      (readFeatureToNegotiate negotiated cache (.startEl n :: rest)).1 =
        .error .policyViolation) ∧
    (∀ d, mapLookup cache n.space = some d → negotiated.contains n.space = false →
      (readFeatureToNegotiate negotiated cache (.startEl n :: rest)).1 = .ok d) := by
  refine ⟨?_, ?_, ?_, ?_⟩
  · cases h1 : mapLookup cache n.space <;> cases h2 : negotiated.contains n.space <;>
      simp only [readFeatureToNegotiate, h1, h2]
  · intro h
    cases h2 : negotiated.contains n.space <;> simp only [readFeatureToNegotiate, h, h2]
  · intro h
    cases h1 : mapLookup cache n.space <;> simp only [readFeatureToNegotiate, h1, h]
  · intro d h1 h2
    simp only [readFeatureToNegotiate, h1, h2]

/-- C6 witness: a STARTTLS start element selected from a one-entry cache,
rejected when absent from the cache, and rejected when already
negotiated. -/
theorem c6_responder_reads_one_feature_witness :
    (readFeatureToNegotiate [] [(nsStartTLS, ⟨true, sampleTLSFeature⟩)]
      [.startEl ⟨nsStartTLS, "starttls"⟩]).1 = .ok ⟨true, sampleTLSFeature⟩ ∧
    (readFeatureToNegotiate [] [] [.startEl ⟨nsStartTLS, "starttls"⟩]).1 =
      .error .policyViolation ∧
    (readFeatureToNegotiate [nsStartTLS] [(nsStartTLS, ⟨true, sampleTLSFeature⟩)]
      [.startEl ⟨nsStartTLS, "starttls"⟩]).1 = .error .policyViolation :=
  ⟨(c6_responder_reads_one_feature [] [(nsStartTLS, ⟨true, sampleTLSFeature⟩)]
      ⟨nsStartTLS, "starttls"⟩ []).2.2.2 ⟨true, sampleTLSFeature⟩ rfl rfl,
   (c6_responder_reads_one_feature [] [] ⟨nsStartTLS, "starttls"⟩ []).2.1 rfl,
   (c6_responder_reads_one_feature [nsStartTLS] [(nsStartTLS, ⟨true, sampleTLSFeature⟩)]
      ⟨nsStartTLS, "starttls"⟩ []).2.2.1 rfl⟩

/-- C7: in the initiator's SASL negotiation, once a mechanism is selected, a
zero-length initial response from the first client step is transmitted in
the `<auth/>` element as the single character `=`, and a non-empty initial
response is transmitted as-is. -/
theorem c7_sasl_zero_length_initial_response (mechs : List SASLMechanism)
    (peer : List String) (resp mech : String)
    (hsel : selectMechanism mechs peer = mech) (hne : mech ≠ "") :
    (strByteLen resp = 0 →
      saslClientStart mechs peer resp =
        .ok (authElemOpen mech ++ "=" ++ authElemClose)) ∧
    (strByteLen resp ≠ 0 →
      saslClientStart mechs peer resp =
        .ok (authElemOpen mech ++ resp ++ authElemClose)) := by
  constructor <;> intro h <;>
    simp [saslClientStart, hsel, hne, saslAuthElement, saslInitialResp, h]

/-- C7 witness: the PLAIN mechanism with an empty and with a non-empty
initial response. -/
theorem c7_sasl_zero_length_initial_response_witness :
    saslClientStart [⟨"PLAIN"⟩] ["PLAIN"] "" =
      .ok (authElemOpen "PLAIN" ++ "=" ++ authElemClose) ∧
    saslClientStart [⟨"PLAIN"⟩] ["PLAIN"] "abc" =
      .ok (authElemOpen "PLAIN" ++ "abc" ++ authElemClose) :=
  ⟨(c7_sasl_zero_length_initial_response [⟨"PLAIN"⟩] ["PLAIN"] "" "PLAIN" rfl
      (by decide)).1 rfl,
   (c7_sasl_zero_length_initial_response [⟨"PLAIN"⟩] ["PLAIN"] "abc" "PLAIN" rfl
      (by decide)).2 (by decide)⟩

/-- C8: as initiator on a TLS-capable transport, receiving `<failure/>` in
the STARTTLS namespace ends the stream with no error when the skip to the
closing tag succeeds (and with `InvalidXML` when it does not), while
receiving `<proceed/>` wraps the transport in a client-side TLS layer and
returns `Secure|StreamRestartRequired`. -/
theorem c8_starttls_failure_and_proceed (rest : List XmlTok) :
    startTLSNegotiate false true (.startEl ⟨nsStartTLS, "failure"⟩ :: rest) true =
      ⟨EndStream, .noAction, none⟩ ∧
    startTLSNegotiate false true (.startEl ⟨nsStartTLS, "failure"⟩ :: rest) false =
      ⟨EndStream, .noAction, some .invalidXML⟩ ∧
    startTLSNegotiate false true (.startEl ⟨nsStartTLS, "proceed"⟩ :: rest) true =
      ⟨Secure ||| StreamRestartRequired, .wrapClient, none⟩ :=
  ⟨rfl, rfl, rfl⟩

/-- C9: constructing the SASL stream feature with an empty mechanism list
panics (modelled as `none`), and with at least one mechanism it yields a
feature whose `Necessary` mask is `Secure` and whose `Prohibited` mask is
`Authn`. -/
theorem c9_sasl_constructor_gating (mechs : List SASLMechanism) :
    (mechs = [] → SASL mechs = none) ∧
    (mechs ≠ [] → ∃ f, SASL mechs = some f) ∧
    (∀ f, SASL mechs = some f → f.necessary = Secure ∧ f.prohibited = Authn) := by
  refine ⟨?_, ?_, ?_⟩
  · rintro rfl
    rfl
  · intro h
    rw [SASL, if_neg (by simpa using h)]
    exact ⟨_, rfl⟩
  · intro f hf
    rw [SASL] at hf
    by_cases h : mechs.length = 0
    · rw [if_pos h] at hf
      cases hf
    · rw [if_neg h] at hf
      rw [← Option.some.inj hf]
      exact ⟨rfl, rfl⟩

/-- C9 witness: the empty mechanism list yields `none`; a one-mechanism list
yields a feature and that feature carries `Secure`/`Authn` gating. -/
theorem c9_sasl_constructor_gating_witness :
    SASL [] = none ∧ (∃ f, SASL [⟨"PLAIN"⟩] = some f) ∧
    (sampleSASLFeature.necessary = Secure ∧ sampleSASLFeature.prohibited = Authn) :=
  ⟨(c9_sasl_constructor_gating []).1 rfl,
   (c9_sasl_constructor_gating [⟨"PLAIN"⟩]).2.1 (by simp),
   (c9_sasl_constructor_gating [⟨"PLAIN"⟩]).2.2 sampleSASLFeature rfl⟩

/-- C10: after a feature's `Negotiate` returns, its namespace is recorded as
negotiated whether or not an error occurred, and the returned mask is OR-ed
into the session state exactly when no error occurred. -/
theorem c10_negotiate_result_bookkeeping (state : Nat) (negotiated : List String)
    (space : String) (mask : Nat) (errB : Bool) :
    ((applyNegotiateResult state negotiated space mask errB).2.contains space = true) ∧
    (errB = false → (applyNegotiateResult state negotiated space mask errB).1 =
      state ||| mask) ∧
    (errB = true → (applyNegotiateResult state negotiated space mask errB).1 = state) := by
  refine ⟨?_, ?_, ?_⟩
  · simp only [applyNegotiateResult, setInsert]
    by_cases h : negotiated.contains space = true
    · rw [if_pos h]
      exact h
    · rw [if_neg h]
      simp
  · rintro rfl
    rfl
  · rintro rfl
    rfl

/-- C10 witness: bookkeeping after a successful and after a failed
`Negotiate` starting from the `Secure` state with no negotiated features. -/
theorem c10_negotiate_result_bookkeeping_witness :
    (applyNegotiateResult Secure [] nsStartTLS Authn false).2.contains nsStartTLS = true ∧
    (applyNegotiateResult Secure [] nsStartTLS Authn false).1 = Secure ||| Authn ∧
    (applyNegotiateResult Secure [] nsStartTLS Authn true).1 = Secure :=
  ⟨(c10_negotiate_result_bookkeeping Secure [] nsStartTLS Authn false).1,
   (c10_negotiate_result_bookkeeping Secure [] nsStartTLS Authn false).2.1 rfl,
   (c10_negotiate_result_bookkeeping Secure [] nsStartTLS Authn true).2.2 rfl⟩

end XmppSpec
